import Mathlib

/-!
Verification of the form-submission pipeline of `email_server.py`
(House of Agile web server).

The Python handler is embedded shallowly:

* a `Submission` is the field mapping built from the decoded POST body
  (an association list; lookup takes the first binding, mirroring the
  Python `dict` produced from `parse_qs` output, which has unique keys);
* stages that can raise a Python exception are modelled with `Except`:
  the combined parse stage (`Content-Length` parsing, body read, UTF-8
  decode), the SMTP transport, and the log-file append;
* the handler returns the HTTP response it emits together with the list
  of dispatch side effects it performs.

String operations are implemented over `List Char` so that every
definition evaluates inside the kernel.
-/

/-- A submission: the mapping from form field names to values, as built by
`_handle_form_submission` from `parse_qs` output (first value per key). -/
def Submission : Type := List (String × String)

/-- Python `submission.get(key)`: the first binding for `key`, if any. -/
def pyGet (s : Submission) (k : String) : Option String :=
  (List.find? (fun p => p.1 = k) s).map Prod.snd

/-- Python `submission.get(key, default)`. -/
def pyGetD (s : Submission) (k d : String) : String :=
  (pyGet s k).getD d

/-- Python truthiness test `not x` for an optional string: `None` and the
empty string are falsy. -/
def pyFalsy (o : Option String) : Bool :=
  match o with
  | none => true
  | some v => v = ""

/-- The required form fields, in the order fixed at line 83 of
`email_server.py`. -/
def requiredFields : List String :=
  ["name", "email", "project_type", "budget", "description"]

/-- `[field for field in required_fields if not submission.get(field)]`
(line 84): the required fields whose value is absent or the empty
string, in the fixed order. -/
def missingFields (s : Submission) : List String :=
  List.filter (fun f => pyFalsy (pyGet s f)) requiredFields

/-- The process environment as read by `_load_email_config`: each
variable is present (`some`) or unset (`none`). -/
structure Env where
  smtpServer : Option String
  smtpPort : Option String
  senderEmail : Option String
  senderPassword : Option String
  recipientEmail : Option String

/-- The populated mail configuration (`config` dict of
`_load_email_config` once validated). -/
structure EmailConfig where
  smtp_server : String
  smtp_port : Int
  sender_email : String
  sender_password : String
  recipient_email : String
deriving DecidableEq

/-- Drop leading and trailing whitespace from a character list
(Python `str.strip()` with no argument). -/
def trimChars (l : List Char) : List Char :=
  ((l.dropWhile Char.isWhitespace).reverse.dropWhile Char.isWhitespace).reverse

/-- Digits-to-number accumulation for a decimal literal. -/
def digitsToNat (l : List Char) : Nat :=
  l.foldl (fun n c => 10 * n + (c.toNat - ('0').toNat)) 0

/-- The digit tail of a Python `int()` literal: all characters must be
decimal digits and there must be at least one. -/
def decDigits (l : List Char) : Option Nat :=
  match l with
  | [] => none
  | _ :: _ => if l.all Char.isDigit then some (digitsToNat l) else none

/-- Python `int(s)` on a decimal string: optional surrounding whitespace,
optional sign, then decimal digits; `none` models the `ValueError` raise.
(Underscore digit grouping and non-ASCII digits are not modelled; the
source only feeds it environment-variable text.) -/
def pyStrToInt (s : String) : Option Int :=
  match trimChars s.data with
  | [] => none
  | c :: cs =>
    if c = '-' then (decDigits cs).map (fun n => -(n : Int))
    else if c = '+' then (decDigits cs).map (fun n => (n : Int))
    else (decDigits (c :: cs)).map (fun n => (n : Int))

/-- `_load_email_config` (lines 32-50): builds the config dict — the
`int(os.getenv('SMTP_PORT', '587'))` call raises (modelled as
`Except.error`) on a non-numeric value — then returns `None` (modelled
`Except.ok none`) when any of `sender_email`, `sender_password`,
`recipient_email` is unset or empty, else the populated config. -/
def loadEmailConfig (env : Env) : Except String (Option EmailConfig) :=
  match pyStrToInt (env.smtpPort.getD "587") with
  | none =>
    Except.error ("ValueError: invalid literal for int() with base 10: "
      ++ env.smtpPort.getD "587")
  | some port =>
    if pyFalsy env.senderEmail || pyFalsy env.senderPassword
        || pyFalsy env.recipientEmail then
      Except.ok none
    else
      Except.ok (some
        { smtp_server := env.smtpServer.getD "smtp.gmail.com"
          smtp_port := port
          sender_email := env.senderEmail.getD ""
          sender_password := env.senderPassword.getD ""
          recipient_email := env.recipientEmail.getD "" })

/-- Replace non-overlapping occurrences of `pat` (left to right) in the
remaining input, with enough fuel; one fuel unit is spent per emitted
character or match, so `s.length` units suffice. -/
def replaceFuel (pat rep : List Char) : Nat → List Char → List Char
  | _, [] => []
  | 0, s => s
  | Nat.succ n, c :: cs =>
    if pat ≠ [] ∧ List.isPrefixOf pat (c :: cs) then
      rep ++ replaceFuel pat rep n (List.drop pat.length (c :: cs))
    else
      c :: replaceFuel pat rep n cs

/-- Python `s.replace(pat, rep)` for a nonempty pattern: replace every
non-overlapping occurrence, scanning left to right. (The source only
calls it with the two-character pattern backslash-`n`; the empty-pattern
edge case is modelled as the identity.) -/
def pyReplace (s pat rep : String) : String :=
  String.mk (replaceFuel pat.data rep.data s.data.length s.data)

/-- The description paragraph content of the email body, line 158:
`submission.get('description', 'N/A').replace('\\n', '<br>')` — note the
doubled backslash in the source: the pattern is the two-character text
backslash-`n`, not the newline character. -/
def renderDescription (s : Submission) : String :=
  pyReplace (pyGetD s "description" "N/A") "\\n" "<br>"

/-- `_format_email_body` (lines 134-168): the HTML body f-string, with
the submission timestamp (`datetime.now().strftime('%Y-%m-%d %H:%M:%S UTC')`)
passed in as `ts`. -/
def formatEmailBody (s : Submission) (ts : String) : String :=
  "\n        <html>\n        <body style=\"font-family: Arial, sans-serif; line-height: 1.6; color: #333;\">\n            <h2 style=\"color: #16a34a;\">New House of Agile Contact Form Submission</h2>\n\n            <div style=\"background: #f8f9fa; padding: 20px; border-radius: 8px; margin: 20px 0;\">\n                <h3 style=\"color: #16a34a; margin-top: 0;\">Contact Information</h3>\n                <p><strong>Name:</strong> "
  ++ pyGetD s "name" "N/A"
  ++ "</p>\n                <p><strong>Email:</strong> "
  ++ pyGetD s "email" "N/A"
  ++ "</p>\n                <p><strong>Company:</strong> "
  ++ pyGetD s "company" "N/A"
  ++ "</p>\n            </div>\n\n            <div style=\"background: #f8f9fa; padding: 20px; border-radius: 8px; margin: 20px 0;\">\n                <h3 style=\"color: #16a34a; margin-top: 0;\">Project Details</h3>\n                <p><strong>Project Type:</strong> "
  ++ pyGetD s "project_type" "N/A"
  ++ "</p>\n                <p><strong>Budget:</strong> "
  ++ pyGetD s "budget" "N/A"
  ++ "</p>\n                <p><strong>Timeline:</strong> "
  ++ pyGetD s "timeline" "N/A"
  ++ "</p>\n                <p><strong>Location:</strong> "
  ++ pyGetD s "location" "N/A"
  ++ "</p>\n            </div>\n\n            <div style=\"background: #f8f9fa; padding: 20px; border-radius: 8px; margin: 20px 0;\">\n                <h3 style=\"color: #16a34a; margin-top: 0;\">Project Description</h3>\n                <p>"
  ++ renderDescription s
  ++ "</p>\n            </div>\n\n            <div style=\"margin-top: 30px; padding-top: 20px; border-top: 1px solid #dee2e6;\">\n                <p style=\"color: #666; font-size: 12px;\">\n                    Submitted on "
  ++ ts
  ++ "\n                </p>\n            </div>\n        </body>\n        </html>\n        "

/-- The message assembled inside `_send_notification_email`. -/
structure EmailMessage where
  msgFrom : String
  msgTo : String
  subject : String
  body : String
deriving DecidableEq

/-- Message assembly (lines 110-117): headers from the config, subject
from `submission['name']` (a direct subscript — `none` models the
`KeyError` raised when `name` is absent, which the surrounding `except`
turns into a failed send), body from `_format_email_body`. -/
def composeMessage (c : EmailConfig) (s : Submission) (ts : String) :
    Option EmailMessage :=
  match pyGet s "name" with
  | none => none
  | some name =>
    some
      { msgFrom := c.sender_email
        msgTo := c.recipient_email
        subject := "New Contact Form Submission from " ++ name
        body := formatEmailBody s ts }

/-- `_send_notification_email` (lines 106-132): compose the message and
hand it to the SMTP transport; the whole body sits in a
`try`/`except Exception` that returns `False`, so any raise during
composition or transport yields `false` rather than propagating.
`transport` is the environment's SMTP behaviour (connect, STARTTLS,
login, sendmail), `Except.error` modelling any raised exception. -/
def sendNotificationEmail (c : EmailConfig) (s : Submission)
    (transport : EmailMessage → Except String Unit) (ts : String) : Bool :=
  match composeMessage c s ts with
  | none => false
  | some m =>
    match transport m with
    | Except.ok _ => true
    | Except.error _ => false

/-- The `'='*50` delimiter line of `_log_submission`. -/
def delimiterLine : String := String.mk (List.replicate 50 '=')

/-- `_log_submission` (lines 170-183): the exact text appended to
`form_submissions.log` — a leading newline, the delimiter line, the
timestamp line (`datetime.now().isoformat()`, passed in as `ts`), then
one `Field: value` line per field, `N/A` when absent, each write
newline-terminated. -/
def logSubmission (s : Submission) (ts : String) : String :=
  "\n" ++ delimiterLine ++ "\n"
  ++ "Timestamp: " ++ ts ++ "\n"
  ++ "Name: " ++ pyGetD s "name" "N/A" ++ "\n"
  ++ "Email: " ++ pyGetD s "email" "N/A" ++ "\n"
  ++ "Company: " ++ pyGetD s "company" "N/A" ++ "\n"
  ++ "Project Type: " ++ pyGetD s "project_type" "N/A" ++ "\n"
  ++ "Budget: " ++ pyGetD s "budget" "N/A" ++ "\n"
  ++ "Timeline: " ++ pyGetD s "timeline" "N/A" ++ "\n"
  ++ "Location: " ++ pyGetD s "location" "N/A" ++ "\n"
  ++ "Description: " ++ pyGetD s "description" "N/A" ++ "\n"

/-- A JSON response as emitted by `_send_success_response` /
`_send_error_response`: HTTP status plus the `success` and `message`
members of the body. -/
structure Response where
  status : Nat
  success : Bool
  message : String
deriving DecidableEq

/-- `_send_success_response` (lines 185-192): status 200,
`{'success': True, 'message': message}`. -/
def successResponse (m : String) : Response :=
  { status := 200, success := true, message := m }

/-- `_send_error_response` (lines 194-201): status 400,
`{'success': False, 'message': message}`. -/
def errorResponse (m : String) : Response :=
  { status := 400, success := false, message := m }

/-- A dispatch side effect of one request: an attempted SMTP send, or a
block appended to `form_submissions.log`. -/
inductive DispatchEffect where
  | emailAttempt : DispatchEffect
  | logWrite : String → DispatchEffect
deriving DecidableEq

/-- `_handle_form_submission` (lines 67-104). `pr` is the outcome of the
parse stage (`Content-Length` parsing, body read, UTF-8 decode, field
extraction), `Except.error` modelling any exception there; `logAttempt`
is the outcome of the log-file open/append (`_log_submission` has no
handler of its own, so its raise reaches the outer `except Exception`,
which responds with the generic message); `ts` is the handling-time
timestamp. Returns the emitted response and the dispatch effects. -/
def handleFormSubmission (cfg : Option EmailConfig)
    (pr : Except String Submission)
    (transport : EmailMessage → Except String Unit)
    (logAttempt : Except String Unit)
    (ts : String) : Response × List DispatchEffect :=
  match pr with
  | Except.error _ => (errorResponse "An error occurred. Please try again.", [])
  | Except.ok submission =>
    if missingFields submission = [] then
      match cfg with
      | some c =>
        if sendNotificationEmail c submission transport ts then
          (successResponse "Thank you! Your message has been sent successfully.",
            [DispatchEffect.emailAttempt])
        else
          (errorResponse "Failed to send email. Please try again or contact us directly.",
            [DispatchEffect.emailAttempt])
      | none =>
        match logAttempt with
        | Except.ok _ =>
          (successResponse "Thank you! Your message has been received. We'll get back to you soon.",
            [DispatchEffect.logWrite (logSubmission submission ts)])
        | Except.error _ =>
          (errorResponse "An error occurred. Please try again.", [])
    else
      (errorResponse ("Missing required fields: "
        ++ String.intercalate ", " (missingFields submission)), [])

/-- Split a character list at every occurrence of `sep`; the result is
the list of separated segments (always nonempty). -/
def splitCharList (sep : Char) : List Char → List (List Char)
  | [] => [[]]
  | c :: cs =>
    if c = sep then [] :: splitCharList sep cs
    else
      match splitCharList sep cs with
      | [] => [[c]]
      | l :: ls => (c :: l) :: ls

/-- The lines of a string: segments between newline characters. -/
def splitLines (s : String) : List String :=
  (splitCharList '\n' s.data).map String.mk

/-- A block of newline-terminated lines (the shape of the writes in
`_log_submission`). -/
def linesToBlock : List String → String
  | [] => ""
  | l :: ls => l ++ "\n" ++ linesToBlock ls

/-- Spec-side notion of a missing field, following the spec's words:
"missing-ness is checked by trimmed emptiness, not just absence" — a
field is missing when absent or when its value trims to the empty
string. -/
def specMissing (s : Submission) (f : String) : Bool :=
  match pyGet s f with
  | none => true
  | some v => trimChars v.data = []

/-! ## Helper lemmas -/

lemma splitCharList_sep_cons (sep : Char) (rest : List Char) :
    splitCharList sep (sep :: rest) = [] :: splitCharList sep rest := by
  simp [splitCharList]

lemma splitCharList_line (sep : Char) (a rest : List Char) (h : sep ∉ a) :
    splitCharList sep (a ++ sep :: rest) = a :: splitCharList sep rest := by
  induction a with
  | nil => simp [splitCharList]
  | cons c cs ih =>
    have hc : ¬ c = sep := fun hh => h (hh ▸ List.mem_cons_self c cs)
    have hcs : sep ∉ cs := fun hh => h (List.mem_cons_of_mem c hh)
    simp [splitCharList, hc, ih hcs]

lemma data_append_newline (l b : String) :
    (l ++ "\n" ++ b).data = l.data ++ '\n' :: b.data := by
  rw [String.data_append, String.data_append]
  rw [List.append_assoc]
  rfl

lemma splitLines_linesToBlock (ls : List String)
    (h : ∀ l ∈ ls, '\n' ∉ l.data) :
    splitLines (linesToBlock ls) = ls ++ [""] := by
  induction ls with
  | nil => decide
  | cons l ls ih =>
    have hl : '\n' ∉ l.data := h l (List.mem_cons_self l ls)
    have hls : ∀ x ∈ ls, '\n' ∉ x.data := fun x hx => h x (List.mem_cons_of_mem l hx)
    show splitLines (l ++ "\n" ++ linesToBlock ls) = (l :: ls) ++ [""]
    unfold splitLines
    rw [data_append_newline, splitCharList_line '\n' l.data _ hl]
    rw [List.map_cons]
    have hmk : String.mk l.data = l := rfl
    rw [hmk]
    have ih2 : (splitCharList '\n' (linesToBlock ls).data).map String.mk = ls ++ [""] := ih hls
    rw [ih2]
    rfl

lemma pyFalsy_false_iff (o : Option String) (h : ¬ pyFalsy o = true) :
    ∃ v, o = some v ∧ v ≠ "" := by
  cases o with
  | none => simp [pyFalsy] at h
  | some v =>
    refine ⟨v, rfl, ?_⟩
    simpa [pyFalsy] using h

lemma missingFields_nil_required (s : Submission) (h : missingFields s = [])
    (f : String) (hf : f ∈ requiredFields) :
    ∃ v, pyGet s f = some v ∧ v ≠ "" := by
  have hnf : ¬ pyFalsy (pyGet s f) = true :=
    List.filter_eq_nil_iff.mp h f hf
  exact pyFalsy_false_iff _ hnf

/-! ## Concrete fixtures -/

/-- An SMTP environment whose send always succeeds. -/
def transport0 : EmailMessage → Except String Unit := fun _ => Except.ok ()

/-- An SMTP environment whose send always raises. -/
def transportFail : EmailMessage → Except String Unit :=
  fun _ => Except.error "smtplib.SMTPAuthenticationError"

/-- The spec's worked example submission (required fields only). -/
def adaSubmission : Submission :=
  [("name", "Ada"), ("email", "ada@x.com"), ("project_type", "web"),
   ("budget", "10k"), ("description", "Need a site.")]

/-- A submission carrying only the `email` field. -/
def onlyEmailSubmission : Submission := [("email", "ada@x.com")]

/-- A concrete populated mail configuration. -/
def cfg0 : EmailConfig :=
  { smtp_server := "smtp.gmail.com", smtp_port := 587
    sender_email := "noreply@houseofagile.com", sender_password := "pw"
    recipient_email := "jc@houseofagile.com" }

/-! ## Response-shape helper -/

lemma handleFormSubmission_response_shape (cfg : Option EmailConfig)
    (pr : Except String Submission)
    (transport : EmailMessage → Except String Unit)
    (logAttempt : Except String Unit) (ts : String) :
    (∃ m, (handleFormSubmission cfg pr transport logAttempt ts).1 = successResponse m) ∨
    (∃ m, (handleFormSubmission cfg pr transport logAttempt ts).1 = errorResponse m) := by
  unfold handleFormSubmission
  rcases pr with e | s
  · exact Or.inr ⟨_, rfl⟩
  · dsimp only
    by_cases h : missingFields s = []
    · rw [if_pos h]
      rcases cfg with _ | c
      · rcases logAttempt with e2 | u
        · exact Or.inr ⟨_, rfl⟩
        · exact Or.inl ⟨_, rfl⟩
      · dsimp only
        by_cases hs : sendNotificationEmail c s transport ts = true
        · rw [if_pos hs]; exact Or.inl ⟨_, rfl⟩
        · rw [if_neg hs]; exact Or.inr ⟨_, rfl⟩
    · rw [if_neg h]; exact Or.inr ⟨_, rfl⟩

/-! ## Claims -/

/-- Claim C1: when at least one required field is absent or empty, the
handler responds 400 with message `Missing required fields: ` followed by
exactly the missing field names, comma-separated, in the fixed order of
`requiredFields` (the missing list is a sublist of it), and performs no
dispatch effect. -/
theorem submitForm_missing_fields_response (cfg : Option EmailConfig)
    (s : Submission) (transport : EmailMessage → Except String Unit)
    (logAttempt : Except String Unit) (ts : String)
    (h : ∃ f ∈ requiredFields, pyFalsy (pyGet s f) = true) :
    handleFormSubmission cfg (Except.ok s) transport logAttempt ts =
      (errorResponse ("Missing required fields: "
        ++ String.intercalate ", "
          (List.filter (fun f => pyFalsy (pyGet s f)) requiredFields)), []) ∧
    List.Sublist (missingFields s) requiredFields := by
  have hne : ¬ missingFields s = [] := by
    intro hnil
    obtain ⟨f, hf, hmiss⟩ := h
    exact List.filter_eq_nil_iff.mp hnil f hf hmiss
  refine ⟨?_, List.filter_sublist _⟩
  unfold handleFormSubmission
  dsimp only
  rw [if_neg hne]
  rfl

/-- Witness for C1 at a submission missing `name`, `project_type`,
`budget` and `description`. -/
theorem submitForm_missing_fields_response_witness :
    handleFormSubmission none (Except.ok onlyEmailSubmission) transport0
        (Except.ok ()) "T" =
      (errorResponse ("Missing required fields: "
        ++ String.intercalate ", "
          (List.filter (fun f => pyFalsy (pyGet onlyEmailSubmission f))
            requiredFields)), []) ∧
    List.Sublist (missingFields onlyEmailSubmission) requiredFields :=
  submitForm_missing_fields_response none onlyEmailSubmission transport0
    (Except.ok ()) "T" ⟨"name", by decide, by decide⟩

/-- Counterexample to claim C2 as stated: for a valid submission in
unconfigured mode whose log append raises, the response is the generic
400 error, not 200 — the logging failure is visible to the client. -/
theorem log_failure_visible_counterexample :
    (handleFormSubmission none (Except.ok adaSubmission) transport0
        (Except.error "PermissionError") "2026-10-12T00:00:00").1 =
      errorResponse "An error occurred. Please try again." ∧
    (handleFormSubmission none (Except.ok adaSubmission) transport0
        (Except.error "PermissionError") "2026-10-12T00:00:00").1.status = 400 := by
  decide

/-- Claim C2 (amended): for a valid submission in unconfigured mode, when
the log append succeeds the handler responds 200 with the "received"
message; when the log append raises, the exception reaches the top-level
handler, which responds 400 with the generic error message. -/
theorem unconfigured_response_amended (s : Submission)
    (transport : EmailMessage → Except String Unit) (ts : String)
    (h : missingFields s = []) :
    (handleFormSubmission none (Except.ok s) transport (Except.ok ()) ts).1 =
      successResponse "Thank you! Your message has been received. We'll get back to you soon." ∧
    ∀ e : String,
      (handleFormSubmission none (Except.ok s) transport (Except.error e) ts).1 =
        errorResponse "An error occurred. Please try again." := by
  constructor
  · unfold handleFormSubmission
    dsimp only
    rw [if_pos h]
  · intro e
    unfold handleFormSubmission
    dsimp only
    rw [if_pos h]

/-- Witness for the amended C2 at the spec's example submission. -/
theorem unconfigured_response_amended_witness :
    (handleFormSubmission none (Except.ok adaSubmission) transport0
        (Except.ok ()) "T").1 =
      successResponse "Thank you! Your message has been received. We'll get back to you soon." ∧
    ∀ e : String,
      (handleFormSubmission none (Except.ok adaSubmission) transport0
          (Except.error e) "T").1 =
        errorResponse "An error occurred. Please try again." :=
  unconfigured_response_amended adaSubmission transport0 "T" (by decide)

/-- Claim C9: for every response the pipeline emits, the status is 200
exactly when the body's success flag is true and 400 exactly when it is
false; no other status occurs. -/
theorem status_success_coupling (cfg : Option EmailConfig)
    (pr : Except String Submission)
    (transport : EmailMessage → Except String Unit)
    (logAttempt : Except String Unit) (ts : String) :
    (handleFormSubmission cfg pr transport logAttempt ts).1.status =
      (if (handleFormSubmission cfg pr transport logAttempt ts).1.success
        then 200 else 400) ∧
    ((handleFormSubmission cfg pr transport logAttempt ts).1.status = 200 ∨
      (handleFormSubmission cfg pr transport logAttempt ts).1.status = 400) := by
  rcases handleFormSubmission_response_shape cfg pr transport logAttempt ts with
    ⟨m, hm⟩ | ⟨m, hm⟩
  · rw [hm]; exact ⟨rfl, Or.inl rfl⟩
  · rw [hm]; exact ⟨rfl, Or.inr rfl⟩

/-- Claim C10: in configured mode the log file is never written — the
dispatch effects are empty or a single attempted mail send, never a
`logWrite`, whatever the transport outcome. -/
theorem configured_mode_no_log_write (c : EmailConfig)
    (pr : Except String Submission)
    (transport : EmailMessage → Except String Unit)
    (logAttempt : Except String Unit) (ts : String) :
    (handleFormSubmission (some c) pr transport logAttempt ts).2 = [] ∨
    (handleFormSubmission (some c) pr transport logAttempt ts).2 =
      [DispatchEffect.emailAttempt] := by
  unfold handleFormSubmission
  rcases pr with e | s
  · exact Or.inl rfl
  · dsimp only
    by_cases h : missingFields s = []
    · rw [if_pos h]
      by_cases hs : sendNotificationEmail c s transport ts = true
      · rw [if_pos hs]; exact Or.inr rfl
      · rw [if_neg hs]; exact Or.inr rfl
    · rw [if_neg h]; exact Or.inl rfl

/-- Claim C3: in configured mode, a transport error during the mail send
is caught inside `_send_notification_email` and converted to a failed
send (never propagated); the handler then responds 400 with the "failed"
message, and 200 with the "sent" message when the send succeeds. -/
theorem configured_mail_outcomes (c : EmailConfig) (s : Submission)
    (transport : EmailMessage → Except String Unit)
    (logAttempt : Except String Unit) (ts : String)
    (h : missingFields s = []) :
    (∀ m, composeMessage c s ts = some m →
      ∀ e, transport m = Except.error e →
        sendNotificationEmail c s transport ts = false) ∧
    (sendNotificationEmail c s transport ts = true →
      (handleFormSubmission (some c) (Except.ok s) transport logAttempt ts).1 =
        successResponse "Thank you! Your message has been sent successfully.") ∧
    (sendNotificationEmail c s transport ts = false →
      (handleFormSubmission (some c) (Except.ok s) transport logAttempt ts).1 =
        errorResponse "Failed to send email. Please try again or contact us directly.") := by
  refine ⟨?_, ?_, ?_⟩
  · intro m hm e he
    simp [sendNotificationEmail, hm, he]
  · intro hs
    simp [handleFormSubmission, h, hs]
  · intro hs
    simp [handleFormSubmission, h, hs]

/-- Witness for C3 at the example submission with an authentication
failure in the transport. -/
theorem configured_mail_outcomes_witness :
    (∀ m, composeMessage cfg0 adaSubmission "T" = some m →
      ∀ e, transportFail m = Except.error e →
        sendNotificationEmail cfg0 adaSubmission transportFail "T" = false) ∧
    (sendNotificationEmail cfg0 adaSubmission transportFail "T" = true →
      (handleFormSubmission (some cfg0) (Except.ok adaSubmission)
          transportFail (Except.ok ()) "T").1 =
        successResponse "Thank you! Your message has been sent successfully.") ∧
    (sendNotificationEmail cfg0 adaSubmission transportFail "T" = false →
      (handleFormSubmission (some cfg0) (Except.ok adaSubmission)
          transportFail (Except.ok ()) "T").1 =
        errorResponse "Failed to send email. Please try again or contact us directly.") :=
  configured_mail_outcomes cfg0 adaSubmission transportFail (Except.ok ()) "T"
    (by decide)

/-- Claim C4: an exception in the parse stages (length parse, body read,
decode) is caught at the top level and answered with the generic 400
failure and no dispatch effect; a raise during the log append is caught
the same way; and every execution emits a structured response whose
status is 200 or 400. -/
theorem pipeline_catchall_total (cfg : Option EmailConfig)
    (transport : EmailMessage → Except String Unit)
    (logAttempt : Except String Unit) (ts : String) :
    (∀ e, handleFormSubmission cfg (Except.error e) transport logAttempt ts =
      (errorResponse "An error occurred. Please try again.", [])) ∧
    (∀ s e, missingFields s = [] →
      handleFormSubmission none (Except.ok s) transport (Except.error e) ts =
        (errorResponse "An error occurred. Please try again.", [])) ∧
    (∀ pr, (handleFormSubmission cfg pr transport logAttempt ts).1.status = 200 ∨
      (handleFormSubmission cfg pr transport logAttempt ts).1.status = 400) := by
  refine ⟨fun e => rfl, ?_, ?_⟩
  · intro s e hmiss
    unfold handleFormSubmission
    dsimp only
    rw [if_pos hmiss]
  · intro pr
    rcases handleFormSubmission_response_shape cfg pr transport logAttempt ts with
      ⟨m, hm⟩ | ⟨m, hm⟩
    · rw [hm]; exact Or.inl rfl
    · rw [hm]; exact Or.inr rfl

/-- Witness for C4 at a failed parse stage. -/
theorem pipeline_catchall_total_witness :
    handleFormSubmission none (Except.error "UnicodeDecodeError") transport0
        (Except.ok ()) "T" =
      (errorResponse "An error occurred. Please try again.", []) :=
  (pipeline_catchall_total none transport0 (Except.ok ()) "T").1
    "UnicodeDecodeError"

/-- An environment with a non-numeric `SMTP_PORT` and all three
credential variables set. -/
def envBadPort : Env :=
  { smtpServer := none, smtpPort := some "abc"
    senderEmail := some "noreply@houseofagile.com"
    senderPassword := some "pw"
    recipientEmail := some "jc@houseofagile.com" }

/-- Claim C5 (code-bug evidence): with `SMTP_PORT=abc` the configuration
loader raises `ValueError` out of `int()` instead of returning the
unconfigured result; the same environment with a numeric port yields a
populated configuration. -/
theorem smtp_port_non_numeric_raises :
    loadEmailConfig envBadPort =
      Except.error "ValueError: invalid literal for int() with base 10: abc" ∧
    loadEmailConfig { envBadPort with smtpPort := some "587" } =
      Except.ok (some cfg0) := ⟨rfl, rfl⟩

/-- A submission whose `name` is a single space, all other required
fields non-empty. -/
def wsSubmission : Submission :=
  [("name", " "), ("email", "ada@x.com"), ("project_type", "web"),
   ("budget", "10k"), ("description", "d")]

/-- Counterexample to claim C6 as stated: a whitespace-only `name` value
is empty after trimming (missing in the spec's sense) yet the validator
does not count it missing — validation succeeds and the handler responds
200. -/
theorem whitespace_passes_validation_counterexample :
    specMissing wsSubmission "name" = true ∧
    missingFields wsSubmission = [] ∧
    (handleFormSubmission none (Except.ok wsSubmission) transport0
        (Except.ok ()) "T").1.status = 200 := by decide

/-- Claim C6 (amended): the validator treats an absent key and an
empty-string value identically — both count as missing — but does not
trim: after successful validation every required key is present with a
raw non-empty value, which may still be whitespace-only. -/
theorem validator_empty_vs_absent_amended (s : Submission) (f : String)
    (hf : f ∈ requiredFields) :
    (pyGet s f = none → f ∈ missingFields s) ∧
    (pyGet s f = some "" → f ∈ missingFields s) ∧
    (missingFields s = [] → ∃ v, pyGet s f = some v ∧ v ≠ "") := by
  refine ⟨?_, ?_, fun h => missingFields_nil_required s h f hf⟩
  · intro h
    exact List.mem_filter.mpr ⟨hf, by simp [pyFalsy, h]⟩
  · intro h
    exact List.mem_filter.mpr ⟨hf, by simp [pyFalsy, h]⟩

/-- Witness for the amended C6 at a submission with `name` absent. -/
theorem validator_empty_vs_absent_amended_witness :
    (pyGet onlyEmailSubmission "name" = none →
      "name" ∈ missingFields onlyEmailSubmission) ∧
    (pyGet onlyEmailSubmission "name" = some "" →
      "name" ∈ missingFields onlyEmailSubmission) ∧
    (missingFields onlyEmailSubmission = [] →
      ∃ v, pyGet onlyEmailSubmission "name" = some v ∧ v ≠ "") :=
  validator_empty_vs_absent_amended onlyEmailSubmission "name" (by decide)

/-- The example submission with an embedded newline in the description. -/
def nlSubmission : Submission :=
  [("name", "Ada"), ("email", "ada@x.com"), ("project_type", "web"),
   ("budget", "10k"), ("description", "Need a site.\nFast turnaround.")]

/-- Claim C7 (code-bug evidence): for a description with a real embedded
newline the mail-body rendering leaves the newline verbatim and inserts
no `<br>` — the source's `replace('\\n', '<br>')` targets the literal
two-character backslash-n text, as the second conjunct shows — while the
log entry keeps the newline verbatim, the description spanning two lines
of the block. -/
theorem description_newline_not_converted :
    renderDescription nlSubmission = "Need a site.\nFast turnaround." ∧
    pyReplace "Need a site.\\nFast turnaround." "\\n" "<br>" =
      "Need a site.<br>Fast turnaround." ∧
    splitLines (logSubmission nlSubmission "2026-10-12T00:00:00") =
      ["", delimiterLine, "Timestamp: 2026-10-12T00:00:00", "Name: Ada",
       "Email: ada@x.com", "Company: N/A", "Project Type: web",
       "Budget: 10k", "Timeline: N/A", "Location: N/A",
       "Description: Need a site.", "Fast turnaround.", ""] := by decide

lemma no_newline_append (a b : String) (ha : '\n' ∉ a.data)
    (hb : '\n' ∉ b.data) : '\n' ∉ (a ++ b).data := by
  rw [String.data_append]
  simp only [List.mem_append, not_or]
  exact ⟨ha, hb⟩

/-- `_log_submission` writes exactly the newline-terminated lines of the
block: blank lead-in, delimiter, timestamp, then one line per field. -/
lemma logSubmission_as_block (s : Submission) (ts : String) :
    logSubmission s ts = linesToBlock
      ["", delimiterLine,
       "Timestamp: " ++ ts,
       "Name: " ++ pyGetD s "name" "N/A",
       "Email: " ++ pyGetD s "email" "N/A",
       "Company: " ++ pyGetD s "company" "N/A",
       "Project Type: " ++ pyGetD s "project_type" "N/A",
       "Budget: " ++ pyGetD s "budget" "N/A",
       "Timeline: " ++ pyGetD s "timeline" "N/A",
       "Location: " ++ pyGetD s "location" "N/A",
       "Description: " ++ pyGetD s "description" "N/A"] := by
  have h0 : ("" : String).data = [] := rfl
  apply String.ext
  simp [logSubmission, linesToBlock, String.data_append, List.append_assoc, h0]

/-- Claim C8: for a valid submission dispatched via the log variant,
exactly one block is appended to the log, consisting of the delimiter
line, the ISO timestamp line and one line per submission field — name,
email, company, project type, budget, timeline, location, description —
with every required value written verbatim and `N/A` for each absent
optional field (field values and timestamp assumed newline-free; an
embedded newline spans extra lines, see the C7 analysis). -/
theorem log_block_structure (s : Submission)
    (transport : EmailMessage → Except String Unit) (ts : String)
    (h : missingFields s = []) (hts : '\n' ∉ ts.data)
    (hv : ∀ f ∈ ["name", "email", "company", "project_type", "budget",
        "timeline", "location", "description"],
      '\n' ∉ (pyGetD s f "N/A").data) :
    (handleFormSubmission none (Except.ok s) transport (Except.ok ()) ts).2 =
      [DispatchEffect.logWrite (logSubmission s ts)] ∧
    splitLines (logSubmission s ts) =
      ["", delimiterLine,
       "Timestamp: " ++ ts,
       "Name: " ++ pyGetD s "name" "N/A",
       "Email: " ++ pyGetD s "email" "N/A",
       "Company: " ++ pyGetD s "company" "N/A",
       "Project Type: " ++ pyGetD s "project_type" "N/A",
       "Budget: " ++ pyGetD s "budget" "N/A",
       "Timeline: " ++ pyGetD s "timeline" "N/A",
       "Location: " ++ pyGetD s "location" "N/A",
       "Description: " ++ pyGetD s "description" "N/A", ""] ∧
    (∀ f ∈ requiredFields,
      ∃ v, pyGet s f = some v ∧ v ≠ "" ∧ pyGetD s f "N/A" = v) ∧
    (pyGet s "company" = none → pyGetD s "company" "N/A" = "N/A") ∧
    (pyGet s "timeline" = none → pyGetD s "timeline" "N/A" = "N/A") ∧
    (pyGet s "location" = none → pyGetD s "location" "N/A" = "N/A") := by
  refine ⟨?_, ?_, ?_, ?_, ?_, ?_⟩
  · simp [handleFormSubmission, h]
  · rw [logSubmission_as_block]
    rw [splitLines_linesToBlock]
    · rfl
    intro l hl
    simp only [List.mem_cons, List.not_mem_nil, or_false] at hl
    rcases hl with rfl | rfl | rfl | rfl | rfl | rfl | rfl | rfl | rfl | rfl | rfl
    · decide
    · decide
    · exact no_newline_append _ _ (by decide) hts
    · exact no_newline_append _ _ (by decide) (hv "name" (by decide))
    · exact no_newline_append _ _ (by decide) (hv "email" (by decide))
    · exact no_newline_append _ _ (by decide) (hv "company" (by decide))
    · exact no_newline_append _ _ (by decide) (hv "project_type" (by decide))
    · exact no_newline_append _ _ (by decide) (hv "budget" (by decide))
    · exact no_newline_append _ _ (by decide) (hv "timeline" (by decide))
    · exact no_newline_append _ _ (by decide) (hv "location" (by decide))
    · exact no_newline_append _ _ (by decide) (hv "description" (by decide))
  · intro f hf
    obtain ⟨v, hv', hne⟩ := missingFields_nil_required s h f hf
    exact ⟨v, hv', hne, by simp [pyGetD, hv']⟩
  · intro hc; simp [pyGetD, hc]
  · intro hc; simp [pyGetD, hc]
  · intro hc; simp [pyGetD, hc]

/-- Witness for C8 at the spec's example submission. -/
theorem log_block_structure_witness :
    (handleFormSubmission none (Except.ok adaSubmission) transport0
        (Except.ok ()) "2026-10-12T00:00:00").2 =
      [DispatchEffect.logWrite (logSubmission adaSubmission "2026-10-12T00:00:00")] ∧
    splitLines (logSubmission adaSubmission "2026-10-12T00:00:00") =
      ["", delimiterLine,
       "Timestamp: " ++ "2026-10-12T00:00:00",
       "Name: " ++ pyGetD adaSubmission "name" "N/A",
       "Email: " ++ pyGetD adaSubmission "email" "N/A",
       "Company: " ++ pyGetD adaSubmission "company" "N/A",
       "Project Type: " ++ pyGetD adaSubmission "project_type" "N/A",
       "Budget: " ++ pyGetD adaSubmission "budget" "N/A",
       "Timeline: " ++ pyGetD adaSubmission "timeline" "N/A",
       "Location: " ++ pyGetD adaSubmission "location" "N/A",
       "Description: " ++ pyGetD adaSubmission "description" "N/A", ""] ∧
    (∀ f ∈ requiredFields,
      ∃ v, pyGet adaSubmission f = some v ∧ v ≠ "" ∧
        pyGetD adaSubmission f "N/A" = v) ∧
    (pyGet adaSubmission "company" = none →
      pyGetD adaSubmission "company" "N/A" = "N/A") ∧
    (pyGet adaSubmission "timeline" = none →
      pyGetD adaSubmission "timeline" "N/A" = "N/A") ∧
    (pyGet adaSubmission "location" = none →
      pyGetD adaSubmission "location" "N/A" = "N/A") :=
  log_block_structure adaSubmission transport0 "2026-10-12T00:00:00"
    (by decide) (by decide) (by decide)
